import Mathlib

/-!
Shallow embedding of the `multiprocessor` package (files `Task.py`, `Job.py`,
`Multiprocessor.py`) and verification of its specification claims.

Modelling conventions:
* Python exceptions are modelled by `Exc` (a kind drawn from the small class
  hierarchy actually used by the code, plus an opaque numeric payload).
* A Python callable bound inside a `Task` is modelled semantically as a Lean
  function `List Value → Except Exc Value`: applying it either returns a value
  or raises an exception.  `Task.__init__`'s `assert callable(callable_)` is
  vacuously satisfied in this model, since every Lean function is callable.
* Mutating methods are modelled by explicit state passing; a method that can
  let an exception escape returns either `Except Exc σ` (state on success only;
  on `error` the Python object is unchanged) or `σ × Option Exc` (final state
  paired with the escaping exception) when the mutations performed before the
  exception escaped are observable, as they are for `Job.run`.
* Validation entry points that inspect arbitrary Python objects
  (`Job.append_exception_to_catch`, `Task.exception_raised`'s setter,
  `Multiprocessor.__init__`) take a `PyObj`, a model of the Python values that
  can reach those type checks.
* The externally defined `Results` class is opaque: `Value.resultsV` marks its
  instances, and `isResults` models `isinstance(x, Results)`.
-/

namespace Multiproc

/-- Python exception classes used by the repository, as a finite universe of
kinds.  `unboundLocalError` models `UnboundLocalError` (a subclass of
`NameError`), which `Multiprocessor.run` can raise. -/
inductive ExcKind where
  | baseException
  | exceptionCls
  | arithmeticError
  | zeroDivisionError
  | overflowError
  | typeError
  | valueError
  | attributeError
  | nameError
  | unboundLocalError
  deriving DecidableEq

/-- Proper ancestors of each exception class in Python's built-in hierarchy,
restricted to the kinds of `ExcKind`. -/
def ExcKind.ancestors : ExcKind → List ExcKind
  | .baseException => []
  | .exceptionCls => [.baseException]
  | .arithmeticError => [.exceptionCls, .baseException]
  | .zeroDivisionError => [.arithmeticError, .exceptionCls, .baseException]
  | .overflowError => [.arithmeticError, .exceptionCls, .baseException]
  | .typeError => [.exceptionCls, .baseException]
  | .valueError => [.exceptionCls, .baseException]
  | .attributeError => [.exceptionCls, .baseException]
  | .nameError => [.exceptionCls, .baseException]
  | .unboundLocalError => [.nameError, .exceptionCls, .baseException]

/-- Python's `issubclass` on the `ExcKind` universe. -/
def ExcKind.isSubclassOf (a b : ExcKind) : Bool :=
  a == b || (ExcKind.ancestors a).contains b

/-- A Python exception instance: its class plus an opaque payload standing for
the message/arguments. -/
structure Exc where
  kind : ExcKind
  payload : Nat
  deriving DecidableEq

/-- Values produced by task callables.  `resultsV` marks instances of the
externally defined `Results` class. -/
inductive Value where
  | noneV
  | intV (n : Int)
  | boolV (b : Bool)
  | resultsV (payload : Nat)
  deriving DecidableEq

/-- Models `isinstance(x, Results)` in `Multiprocessor._wrapper`. -/
def isResults : Value → Bool
  | .resultsV _ => true
  | _ => false

/-- Embedding of the `Task` class (`Task.py`): a callable, its fixed positional
arguments, and the two post-execution slots.  Both slots start empty
(`return_value` is Python's `None`, `exception_raised` is `None`). -/
structure Task where
  callable_ : List Value → Except Exc Value
  arguments : List Value
  return_value : Value
  exception_raised : Option Exc

/-- Embedding of `Task.__init__` (`Task.py` lines 18-33).  The
`assert callable(callable_)` check is vacuously true in this model because the
action is a Lean function. -/
def Task.init (c : List Value → Except Exc Value) (arguments : List Value) : Task :=
  { callable_ := c, arguments := arguments, return_value := Value.noneV, exception_raised := none }

/-- Model of the Python objects that can reach the dynamic type checks of the
repository: exception classes, other (non-exception) classes, exception
instances, plain values, callables, generators, and the four collection types
tested by `Job.append_exception_to_catch`. -/
inductive PyObj where
  | excCls (k : ExcKind)
  | cls (id : Nat)
  | excInst (e : Exc)
  | intObj (n : Int)
  | boolObj (b : Bool)
  | noneObj
  | funcObj (id : Nat)
  | genObj (id : Nat)
  | listObj (xs : List PyObj)
  | tupleObj (xs : List PyObj)
  | setObj (xs : List PyObj)
  | frozensetObj (xs : List PyObj)

/-- Models `hasattr(x, '__iter__')`: true for the collection types, generators. -/
def hasIterAttr : PyObj → Bool
  | .listObj _ => true
  | .tupleObj _ => true
  | .setObj _ => true
  | .frozensetObj _ => true
  | .genObj _ => true
  | _ => false

/-- Models Python's `callable(x)`: functions and classes are callable. -/
def isCallableObj : PyObj → Bool
  | .funcObj _ => true
  | .excCls _ => true
  | .cls _ => true
  | _ => false

/-- Models `isinstance(x, bool)`. -/
def isBoolInst : PyObj → Bool
  | .boolObj _ => true
  | _ => false

/-- Models `isinstance(x, int)`; Python's `bool` is a subclass of `int`. -/
def isIntInst : PyObj → Bool
  | .intObj _ => true
  | .boolObj _ => true
  | _ => false

/-- True exactly for exception classes (failure kinds). -/
def isExcClsObj : PyObj → Bool
  | .excCls _ => true
  | _ => false

/-- True exactly for exception instances (actual failure objects). -/
def isExcInstObj : PyObj → Bool
  | .excInst _ => true
  | _ => false

/-- True exactly for class objects (exception classes or other classes). -/
def isClassObj : PyObj → Bool
  | .excCls _ => true
  | .cls _ => true
  | _ => false

/-- Models `type(x) in (list, tuple, set, frozenset)` from
`Job.append_exception_to_catch`, returning the elements when it holds. -/
def isCollectionType : PyObj → Option (List PyObj)
  | .listObj xs => some xs
  | .tupleObj xs => some xs
  | .setObj xs => some xs
  | .frozensetObj xs => some xs
  | _ => none

/-- Embedding of the `exception_raised` property setter (`Task.py` lines
100-112).  The setter executes `raise value` inside
`try ... except value.__class__ as error`:
* an exception instance is raised and immediately caught by its own class, and
  the caught object is stored in the slot;
* an exception class would be instantiated and raised, but the `except` clause
  then names `value.__class__ = type`, which is not an exception class, so the
  interpreter raises `TypeError` and the slot is never written;
* any other value makes `raise value` itself fail with `TypeError`
  (exceptions must derive from `BaseException`), again before any write.
On `Except.error` the task is unchanged (the slot is not updated). -/
def Task.set_exception_raised (t : Task) (value : PyObj) : Except Exc Task :=
  match value with
  | .excInst e => Except.ok { t with exception_raised := some e }
  | .excCls _ => Except.error { kind := ExcKind.typeError, payload := 3 }
  | _ => Except.error { kind := ExcKind.typeError, payload := 4 }

/-- Embedding of the `Job` class (`Job.py`).  `exceptions_to_catch_list` is the
private attribute `__exceptions_to_catch`; the public read-only property
`exceptions_to_catch` is the separate definition `Job.exceptions_to_catch`
below.  `ongoing_task` holds the index (position in `tasks_to_do`) of the task
the `run` loop last started, modelling the Python reference
`__ongoing_task`. -/
structure Job where
  tasks_to_do : List Task
  exceptions_to_catch_list : List ExcKind
  tasks_to_do_if_shit_happens : List Task
  ongoing_task : Option Nat

/-- Embedding of `Job.__init__` (`Job.py` lines 65-77): all three lists empty
and no ongoing task. -/
def Job.init : Job :=
  { tasks_to_do := [], exceptions_to_catch_list := [],
    tasks_to_do_if_shit_happens := [], ongoing_task := none }

/-- Embedding of `Job.append_normal_task` (`Job.py` lines 90-98). -/
def Job.append_normal_task (j : Job) (c : List Value → Except Exc Value)
    (arguments : List Value) : Job :=
  { j with tasks_to_do := j.tasks_to_do ++ [Task.init c arguments] }

/-- Embedding of `Job.append_forgiveness_task` (`Job.py` lines 109-120). -/
def Job.append_forgiveness_task (j : Job) (c : List Value → Except Exc Value)
    (arguments : List Value) : Job :=
  { j with tasks_to_do_if_shit_happens :=
      j.tasks_to_do_if_shit_happens ++ [Task.init c arguments] }

/-- Embedding of the read-only property `Job.exceptions_to_catch` (`Job.py`
lines 226-233): the declared list if non-empty, otherwise the one-element
tuple `(BaseException,)`. -/
def Job.exceptions_to_catch (j : Job) : List ExcKind :=
  if j.exceptions_to_catch_list.isEmpty then [ExcKind.baseException]
  else j.exceptions_to_catch_list

/-- Models the generator `all(issubclass(e, BaseException) for e in exception)`
consumed by `all` inside `Job.append_exception_to_catch`: `all` short-circuits
on the first `False`, and `issubclass` raises `TypeError` when its first
argument is not a class. -/
def allSubclassBase : List PyObj → Except Exc Bool
  | [] => Except.ok true
  | x :: xs =>
    match x with
    | .excCls _ => allSubclassBase xs
    | .cls _ => Except.ok false
    | _ => Except.error { kind := ExcKind.typeError, payload := 6 }

/-- The exception class carried by a `PyObj`, when it is one. -/
def asExcCls : PyObj → Option ExcKind
  | .excCls k => some k
  | _ => none

/-- Embedding of `Job.append_exception_to_catch` (`Job.py` lines 131-148).
For a collection, the element check either raises (via `issubclass` on a
non-class element), or the explicit `raise TypeError(...)` fires on a
non-exception class element, or all elements extend the list.  For a bare
object, `issubclass(exception, BaseException)` raises `TypeError` unless the
object is a class; a non-exception class falls through to the final bare
`return`, silently leaving the list unchanged. -/
def Job.append_exception_to_catch (j : Job) (exception : PyObj) : Except Exc Job :=
  match isCollectionType exception with
  | some xs =>
    match allSubclassBase xs with
    | Except.error e => Except.error e
    | Except.ok false => Except.error { kind := ExcKind.typeError, payload := 1 }
    | Except.ok true =>
      Except.ok { j with exceptions_to_catch_list :=
        j.exceptions_to_catch_list ++ xs.filterMap asExcCls }
  | none =>
    match exception with
    | .excCls k => Except.ok { j with exceptions_to_catch_list :=
        j.exceptions_to_catch_list ++ [k] }
    | .cls _ => Except.ok j
    | _ => Except.error { kind := ExcKind.typeError, payload := 5 }

/-- The loop body of `Job.run` (`Job.py` lines 165-168), indexed from `base`:
for each task, record it as ongoing, call its action, and store the returned
value in `return_value`; stop at the first raised exception.  Returns the
updated task list, the index last stored in `__ongoing_task` (none when the
list is empty), and the escaping exception, if any. -/
def runTasksIdx : Nat → List Task → List Task × Option Nat × Option Exc
  | _, [] => ([], none, none)
  | i, t :: ts =>
    match t.callable_ t.arguments with
    | Except.error e => (t :: ts, some i, some e)
    | Except.ok v =>
      match runTasksIdx (i + 1) ts with
      | (ts', oi, r) => ({ t with return_value := v } :: ts', some (oi.getD i), r)

/-- The loop of `Job.ask_forgiveness` (`Job.py` lines 186-188): run each task
in order, storing its return value; the first raised exception escapes with
the remaining tasks untouched.  No ongoing-task tracking here. -/
def runTaskList : List Task → List Task × Option Exc
  | [] => ([], none)
  | t :: ts =>
    match t.callable_ t.arguments with
    | Except.error e => (t :: ts, some e)
    | Except.ok v =>
      match runTaskList ts with
      | (ts', r) => ({ t with return_value := v } :: ts', r)

/-- Embedding of `Job.run` (`Job.py` lines 158-169).  The returned `Job` is the
state after the loop (mutations persist even when an exception escapes); the
`Option Exc` is the exception that propagated out of `run`, if any.  When the
task list is empty the loop body never executes and `__ongoing_task` keeps its
previous value. -/
def Job.run (j : Job) : Job × Option Exc :=
  let res := runTasksIdx 0 j.tasks_to_do
  ({ j with tasks_to_do := res.1,
            ongoing_task := res.2.1.orElse fun _ => j.ongoing_task }, res.2.2)

/-- Attach a captured exception to the task at the given position, modelling
the assignment `self.__ongoing_task.exception_raised = exception_raised`
through the `Task` setter (which always succeeds on an actual exception
instance). -/
def setExcAt : List Task → Nat → Exc → List Task
  | [], _, _ => []
  | t :: ts, 0, e => { t with exception_raised := some e } :: ts
  | t :: ts, n + 1, e => t :: setExcAt ts n e

/-- Embedding of `Job.ask_forgiveness` (`Job.py` lines 173-189).  When no task
has ever been started, `__ongoing_task` is `None` and the attribute assignment
on it raises `AttributeError` before any forgiveness task runs.  Otherwise the
exception is recorded on the ongoing task and the forgiveness list runs once,
in order, any exception escaping with the state reached so far. -/
def Job.ask_forgiveness (j : Job) (e : Exc) : Job × Option Exc :=
  match j.ongoing_task with
  | none => (j, some { kind := ExcKind.attributeError, payload := 0 })
  | some i =>
    let res := runTaskList j.tasks_to_do_if_shit_happens
    ({ j with tasks_to_do := setExcAt j.tasks_to_do i e,
              tasks_to_do_if_shit_happens := res.1 }, res.2)

/-- Models the `except job.exceptions_to_catch` clause: the raised exception is
caught when its class is a subclass of one of the listed classes. -/
def catchesExc (ks : List ExcKind) (e : Exc) : Bool :=
  ks.any fun k => ExcKind.isSubclassOf e.kind k

/-- One scan loop of `Multiprocessor._wrapper` (`Multiprocessor.py` lines
264-267 and 268-271): return the first stored return value that is a `Results`
instance. -/
def scanForResults : List Task → Option Value
  | [] => none
  | t :: ts => if isResults t.return_value then some t.return_value else scanForResults ts

/-- The extraction step of `Multiprocessor._wrapper` (`Multiprocessor.py`
lines 264-272): scan the normal list, then the forgiveness list, for the first
`Results`-valued return value; `none` models the final `return None`. -/
def extractFirstResults (j : Job) : Option Value :=
  match scanForResults j.tasks_to_do with
  | some v => some v
  | none => scanForResults j.tasks_to_do_if_shit_happens

/-- Embedding of `Multiprocessor._wrapper` (`Multiprocessor.py` lines 233-272)
together with the final state of the job it mutated: run the job; if an
exception escapes and is matched by `job.exceptions_to_catch`, call
`ask_forgiveness` (whose own exception, if any, escapes the wrapper);
an unmatched exception escapes unchanged; otherwise extract the first
`Results` value.  The `print(error)` side effect is not modelled. -/
def Multiprocessor.wrapperFull (job : Job) : Job × Except Exc (Option Value) :=
  let r1 := job.run
  match r1.2 with
  | none => (r1.1, Except.ok (extractFirstResults r1.1))
  | some e =>
    if catchesExc r1.1.exceptions_to_catch e then
      let r2 := r1.1.ask_forgiveness e
      match r2.2 with
      | none => (r2.1, Except.ok (extractFirstResults r2.1))
      | some e2 => (r2.1, Except.error e2)
    else (r1.1, Except.error e)

/-- The value `Multiprocessor._wrapper` returns to its caller (or the
exception it lets escape). -/
def Multiprocessor._wrapper (job : Job) : Except Exc (Option Value) :=
  (Multiprocessor.wrapperFull job).2

/-- Embedding of the `Multiprocessor` instance state after a successful
`__init__`: the job source (consumed once, in order, hence a list), the stored
extractor (opaque: the current `_wrapper` never invokes it), the mode flag and
the worker-count bound. -/
structure Multiprocessor where
  job_generator : List Job
  result_extractor_function : Nat
  parallelize : Bool
  number_of_processes : Int

/-- Models `Multiprocessor.run` lines 181-184: the local variable
`number_of_processes` is assigned (from `cpu_count()`) only inside the
`if self.__number_of_processes <= 0` branch, so evaluating it at
`Pool(number_of_processes)` raises `UnboundLocalError` whenever the stored
bound is positive. -/
def Multiprocessor.poolSize (m : Multiprocessor) (cpu_count : Nat) : Except Exc Nat :=
  if m.number_of_processes ≤ 0 then Except.ok cpu_count
  else Except.error { kind := ExcKind.unboundLocalError, payload := 0 }

/-- Outcome collection common to both modes: the sequential `for` loop
(`Multiprocessor.py` lines 188-191) applies `_wrapper` to each job in order
and stops at the first escaping exception; `Pool.starmap` (line 185) collects
the wrapper outcomes in submission order and re-raises the failure of a unit
of work at the collection step, discarding the other outcomes. -/
def mapWrapper : List Job → Except Exc (List (Option Value))
  | [] => Except.ok []
  | j :: js =>
    match Multiprocessor._wrapper j with
    | Except.error e => Except.error e
    | Except.ok v =>
      match mapWrapper js with
      | Except.error e => Except.error e
      | Except.ok vs => Except.ok (v :: vs)

/-- Embedding of `Multiprocessor.run` (`Multiprocessor.py` lines 167-192).
`cpu_count` is the external `multiprocessing.cpu_count()` value.  In parallel
mode the pool is created first (raising `UnboundLocalError` when the stored
bound is positive, see `Multiprocessor.poolSize`), then `starmap` collects one
outcome per job in order; in sequential mode the `for` loop does the same
collection inline. -/
def Multiprocessor.run (m : Multiprocessor) (cpu_count : Nat) :
    Except Exc (List (Option Value)) :=
  if m.parallelize then
    match m.poolSize cpu_count with
    | Except.error e => Except.error e
    | Except.ok _ => mapWrapper m.job_generator
  else
    mapWrapper m.job_generator

/-- The four constraint-violation messages `Multiprocessor.__init__` can put in
its aggregated error report (`Multiprocessor.py` lines 151-160). -/
inductive Problem where
  | jobGeneratorNotIterable
  | parallelizeNotBool
  | numberOfProcessesNotInt
  | extractorNotCallable
  deriving DecidableEq

/-- The aggregated problem report built by `Multiprocessor.__init__` lines
151-160: one entry per violated constraint (the Python `set` is modelled as a
duplicate-free list in the order the checks appear). -/
def problemsFor (job_generator extractor_function parallelize number_of_processes : PyObj) :
    List Problem :=
  (if hasIterAttr job_generator then [] else [Problem.jobGeneratorNotIterable]) ++
  (if isBoolInst parallelize then [] else [Problem.parallelizeNotBool]) ++
  (if isIntInst number_of_processes then [] else [Problem.numberOfProcessesNotInt]) ++
  (if isCallableObj extractor_function then [] else [Problem.extractorNotCallable])

/-- The four attributes stored by a successful `Multiprocessor.__init__`. -/
structure MultiprocessorFields where
  job_generator : PyObj
  parallelize : PyObj
  number_of_processes : PyObj
  result_extractor_function : PyObj

/-- Embedding of `Multiprocessor.__init__` (`Multiprocessor.py` lines 93-163):
if the job source is iterable, the flag a `bool`, the bound an `int` and the
extractor callable, store the four fields; otherwise raise one `TypeError`
whose message aggregates every violated constraint. -/
def Multiprocessor.init (job_generator extractor_function parallelize number_of_processes : PyObj) :
    Except (Exc × List Problem) MultiprocessorFields :=
  if hasIterAttr job_generator && isBoolInst parallelize &&
      isIntInst number_of_processes && isCallableObj extractor_function then
    Except.ok { job_generator := job_generator, parallelize := parallelize,
                number_of_processes := number_of_processes,
                result_extractor_function := extractor_function }
  else
    Except.error ({ kind := ExcKind.typeError, payload := 2 },
      problemsFor job_generator extractor_function parallelize number_of_processes)

/-!
Basic facts about the embedding, used by the claim theorems below.
-/

/-- Every exception class is a subclass of `BaseException`. -/
theorem isSubclassOf_baseException (k : ExcKind) :
    ExcKind.isSubclassOf k ExcKind.baseException = true := by
  cases k <;> rfl

/-- The catch-all tuple `(BaseException,)` matches every exception. -/
theorem catchesExc_baseException (e : Exc) :
    catchesExc [ExcKind.baseException] e = true := by
  simp [catchesExc, isSubclassOf_baseException]

/-- If the tasks before position `k` all succeed and the task at position `k`
raises `e`, the `run` loop stores the results of the first `k` tasks, records
`k` as ongoing, lets `e` escape, and leaves the tasks from position `k` on
untouched. -/
theorem runTasksIdx_fail (k : Nat) (e : Exc) :
    ∀ (base : Nat) (ts : List Task) (hk : k < ts.length),
    (∀ t ∈ ts.take k, ∃ v, t.callable_ t.arguments = Except.ok v) →
    (ts.get ⟨k, hk⟩).callable_ (ts.get ⟨k, hk⟩).arguments = Except.error e →
    ∃ ts', runTasksIdx base ts = (ts', some (base + k), some e) ∧
      ts'.length = ts.length ∧ ts'.drop k = ts.drop k := by
  induction k with
  | zero =>
    intro base ts hk hpre hfail
    cases ts with
    | nil => simp at hk
    | cons t rest =>
      have hf : t.callable_ t.arguments = Except.error e := hfail
      exact ⟨t :: rest, by simp [runTasksIdx, hf], rfl, rfl⟩
  | succ k ih =>
    intro base ts hk hpre hfail
    cases ts with
    | nil => simp at hk
    | cons t rest =>
      have hk' : k < rest.length := by simpa using Nat.lt_of_succ_lt_succ hk
      obtain ⟨v, hv⟩ := hpre t (by simp)
      have hpre' : ∀ u ∈ rest.take k, ∃ w, u.callable_ u.arguments = Except.ok w := by
        intro u hu
        exact hpre u (by simp [hu])
      have hfail' : (rest.get ⟨k, hk'⟩).callable_ (rest.get ⟨k, hk'⟩).arguments
          = Except.error e := hfail
      obtain ⟨ts', h1, h2, h3⟩ := ih (base + 1) rest hk' hpre' hfail'
      refine ⟨{ t with return_value := v } :: ts', ?_, by simp [h2], by simpa using h3⟩
      simp only [runTasksIdx, hv, h1]
      refine Prod.ext rfl (Prod.ext ?_ rfl)
      simp [Option.getD]
      omega

/-- When the `run` loop lets an exception escape, some task was recorded as
ongoing. -/
theorem runTasksIdx_ongoing (base : Nat) (ts : List Task) (e : Exc)
    (h : (runTasksIdx base ts).2.2 = some e) :
    ∃ i, (runTasksIdx base ts).2.1 = some i := by
  cases ts with
  | nil => simp [runTasksIdx] at h
  | cons t rest =>
    cases hc : t.callable_ t.arguments with
    | error e2 => exact ⟨base, by simp [runTasksIdx, hc]⟩
    | ok v =>
      rcases hr : runTasksIdx (base + 1) rest with ⟨ts', oi, r⟩
      exact ⟨oi.getD base, by simp [runTasksIdx, hc, hr]⟩

/-- `Job.run` touches only the normal task list and the ongoing-task pointer. -/
theorem Job.run_preserves (j : Job) :
    (j.run).1.exceptions_to_catch_list = j.exceptions_to_catch_list ∧
    (j.run).1.tasks_to_do_if_shit_happens = j.tasks_to_do_if_shit_happens := by
  simp [Job.run]

/-- After a failing `run`, the ongoing-task pointer is set. -/
theorem Job.run_ongoing_of_fail (j j' : Job) (e : Exc) (h : j.run = (j', some e)) :
    ∃ i, j'.ongoing_task = some i := by
  have h2 : (runTasksIdx 0 j.tasks_to_do).2.2 = some e := by
    have := congrArg Prod.snd h
    simpa [Job.run] using this
  obtain ⟨i, hi⟩ := runTasksIdx_ongoing 0 j.tasks_to_do e h2
  have h1 : j'.ongoing_task =
      ((runTasksIdx 0 j.tasks_to_do).2.1.orElse fun _ => j.ongoing_task) := by
    have := congrArg (fun p => p.1.ongoing_task) h
    simpa [Job.run] using this.symm
  exact ⟨i, by simp [h1, hi, Option.orElse]⟩

/-- The one-pass scan equals `find?` of the `Results` capability over the
stored return values. -/
theorem scanForResults_eq_find (ts : List Task) :
    scanForResults ts = (ts.map Task.return_value).find? isResults := by
  induction ts with
  | nil => rfl
  | cons t rest ih =>
    by_cases h : isResults t.return_value = true <;>
      simp [scanForResults, List.find?_cons, h, ih]

/-- Scanning a concatenation scans the first list, then the second. -/
theorem scanForResults_append (a b : List Task) :
    scanForResults (a ++ b) =
      match scanForResults a with
      | some v => some v
      | none => scanForResults b := by
  induction a with
  | nil => simp [scanForResults]
  | cons t rest ih =>
    by_cases h : isResults t.return_value = true <;> simp [scanForResults, h, ih]

/-- The extraction step returns the first `Results`-capable stored return
value, scanning the normal list before the forgiveness list. -/
theorem extractFirstResults_eq (j : Job) :
    extractFirstResults j =
      ((j.tasks_to_do ++ j.tasks_to_do_if_shit_happens).map Task.return_value).find?
        isResults := by
  rw [← scanForResults_eq_find]
  unfold extractFirstResults
  rw [scanForResults_append]

/-- If every job's wrapper returns normally, the outcome collection returns one
outcome per job, in traversal order. -/
theorem mapWrapper_ok (js : List Job)
    (h : ∀ j ∈ js, ∃ v, Multiprocessor._wrapper j = Except.ok v) :
    ∃ outs, mapWrapper js = Except.ok outs ∧ outs.length = js.length ∧
      ∀ (i : Nat) (hi : i < js.length) (ho : i < outs.length),
        Multiprocessor._wrapper (js.get ⟨i, hi⟩) = Except.ok (outs.get ⟨i, ho⟩) := by
  induction js with
  | nil => exact ⟨[], rfl, rfl, by intro i hi; simp at hi⟩
  | cons j rest ih =>
    obtain ⟨v, hv⟩ := h j (by simp)
    obtain ⟨outs, h1, h2, h3⟩ := ih (fun u hu => h u (by simp [hu]))
    refine ⟨v :: outs, by simp [mapWrapper, hv, h1], by simp [h2], ?_⟩
    intro i hi ho
    cases i with
    | zero => exact hv
    | succ n => exact h3 n (Nat.lt_of_succ_lt_succ hi) (Nat.lt_of_succ_lt_succ ho)

/-- If the wrapper of some job raises and the wrappers of the jobs before it
return normally, the outcome collection raises that failure instead of
returning a sequence. -/
theorem mapWrapper_error (pre : List Job) (j : Job) (post : List Job) (e : Exc)
    (hpre : ∀ p ∈ pre, ∃ v, Multiprocessor._wrapper p = Except.ok v)
    (hj : Multiprocessor._wrapper j = Except.error e) :
    mapWrapper (pre ++ j :: post) = Except.error e := by
  induction pre with
  | nil => simp [mapWrapper, hj]
  | cons p rest ih =>
    obtain ⟨v, hv⟩ := hpre p (by simp)
    have hrest := ih (fun u hu => hpre u (by simp [hu]))
    simp [mapWrapper, hv, hrest]

/-- When `run` lets a caught exception escape, the wrapper runs the
forgiveness list exactly once, in order: the forgiveness list of the job state
left by the wrapper is the one produced by a single in-order pass. -/
theorem wrapperFull_forg_of_caught (j j' : Job) (e : Exc)
    (hrun : j.run = (j', some e))
    (hc : catchesExc j'.exceptions_to_catch e = true)
    (i : Nat) (ho : j'.ongoing_task = some i) :
    (Multiprocessor.wrapperFull j).1.tasks_to_do_if_shit_happens
      = (runTaskList j'.tasks_to_do_if_shit_happens).1 := by
  unfold Multiprocessor.wrapperFull
  rw [hrun]
  simp only [hc, if_true]
  unfold Job.ask_forgiveness
  rw [ho]
  rcases hres : runTaskList j'.tasks_to_do_if_shit_happens with ⟨fs, r⟩
  cases r <;> simp [hres]

/-- The wrapper either returns the extraction step applied to the job state it
left behind, or lets an exception escape. -/
theorem wrapperFull_cases (j : Job) :
    (Multiprocessor.wrapperFull j).2
        = Except.ok (extractFirstResults (Multiprocessor.wrapperFull j).1) ∨
    ∃ e, (Multiprocessor.wrapperFull j).2 = Except.error e := by
  unfold Multiprocessor.wrapperFull
  rcases j.run with ⟨j1, r⟩
  cases r with
  | none => exact Or.inl (by simp)
  | some e =>
    cases hc : catchesExc j1.exceptions_to_catch e with
    | true =>
      rcases hask : j1.ask_forgiveness e with ⟨j2, r2⟩
      cases r2 with
      | none => exact Or.inl (by simp [hc, hask])
      | some e2 => exact Or.inr ⟨e2, by simp [hc, hask]⟩
    | false => exact Or.inr ⟨e, by simp [hc]⟩

/-- When the wrapper returns normally, its outcome is the extraction step
applied to the job state it left behind. -/
theorem wrapperFull_ok_extract (j : Job) (out : Option Value)
    (h : (Multiprocessor.wrapperFull j).2 = Except.ok out) :
    out = extractFirstResults (Multiprocessor.wrapperFull j).1 := by
  rcases wrapperFull_cases j with hcase | ⟨e, hcase⟩
  · have h2 := h.symm.trans hcase
    exact Except.ok.inj h2
  · rw [hcase] at h
    exact Except.noConfusion h

/-- A sample action: returns the integer 2 without raising. -/
def actInt2 : List Value → Except Exc Value := fun _ => Except.ok (Value.intV 2)

/-- A sample action: raises a `ZeroDivisionError`. -/
def actDivZero : List Value → Except Exc Value :=
  fun _ => Except.error { kind := ExcKind.zeroDivisionError, payload := 7 }

/-- A sample action: returns a `Results` instance with the given payload. -/
def actRes (n : Nat) : List Value → Except Exc Value :=
  fun _ => Except.ok (Value.resultsV n)

/-- A job with a single successful task and no declared failures. -/
def jobPlain : Job :=
  { tasks_to_do := [Task.init actInt2 []], exceptions_to_catch_list := [],
    tasks_to_do_if_shit_happens := [], ongoing_task := none }

/-- A job whose second of three tasks raises a declared failure and which has
one forgiveness task. -/
def jobC3 : Job :=
  { tasks_to_do := [Task.init actInt2 [], Task.init actDivZero [], Task.init actInt2 []],
    exceptions_to_catch_list := [ExcKind.zeroDivisionError],
    tasks_to_do_if_shit_happens := [Task.init actInt2 []], ongoing_task := none }

/-- A job whose single task raises a failure absent from its non-empty catch
set. -/
def jobC4 : Job :=
  { tasks_to_do := [Task.init actDivZero []],
    exceptions_to_catch_list := [ExcKind.typeError],
    tasks_to_do_if_shit_happens := [], ongoing_task := none }

/-- A job with no declared failure kinds whose single task raises, and one
forgiveness task. -/
def jobC5 : Job :=
  { tasks_to_do := [Task.init actDivZero []],
    exceptions_to_catch_list := [],
    tasks_to_do_if_shit_happens := [Task.init actInt2 []], ongoing_task := none }

/-- A job where both a normal task and a forgiveness task produce a `Results`
value: the first normal task stores one before the second raises a declared
failure, and the forgiveness task stores another. -/
def jobC6 : Job :=
  { tasks_to_do := [Task.init (actRes 1) [], Task.init actDivZero []],
    exceptions_to_catch_list := [ExcKind.zeroDivisionError],
    tasks_to_do_if_shit_happens := [Task.init (actRes 2) []], ongoing_task := none }

/-- A sample task used by the setter witness. -/
def task0 : Task := Task.init actInt2 []

/-- A parallel-mode dispatcher over one successful job with a positive worker
bound (the configuration of the docstring example at `Multiprocessor.py` line
68). -/
def mPosBound : Multiprocessor :=
  { job_generator := [jobPlain], result_extractor_function := 0,
    parallelize := true, number_of_processes := 3 }

/-- A parallel-mode dispatcher over one successful job with worker bound 0. -/
def mZeroBound : Multiprocessor :=
  { job_generator := [jobPlain], result_extractor_function := 0,
    parallelize := true, number_of_processes := 0 }

/-!
The claims.
-/

/-- Claim C1, counterexample: for a batch of one job that completes without
any failure, sequential mode returns the length-1 outcome sequence, but
parallel mode with the positive worker bound 3 returns no outcome sequence at
all (it raises `UnboundLocalError`, see `Multiprocessor.poolSize`), so the
claim as stated fails for dispatchers with a positive worker bound. -/
theorem C1_counterexample :
    Multiprocessor.run
      { mPosBound with parallelize := false } 4 = Except.ok [none] ∧
    ∀ outs, Multiprocessor.run mPosBound 4 ≠ Except.ok outs := by
  refine ⟨rfl, ?_⟩
  intro outs h
  rw [show Multiprocessor.run mPosBound 4
      = Except.error { kind := ExcKind.unboundLocalError, payload := 0 } from rfl] at h
  exact Except.noConfusion h

/-- Claim C1 (amended): for every dispatcher in parallel mode whose worker
bound is non-positive (the only reachable parallel configuration, since a
positive bound raises `UnboundLocalError` before the pool is created) and
whose jobs all complete without an unrecovered failure, the parallel run and
the sequential run of the same dispatcher return the same outcome sequence,
of the same length as the batch, whose `i`-th element is the wrapper outcome
of the `i`-th job in the job source's traversal order. -/
theorem C1_order_preservation (m : Multiprocessor) (cpu_count : Nat)
    (hpar : m.parallelize = true) (hnp : m.number_of_processes ≤ 0)
    (hok : ∀ j ∈ m.job_generator, ∃ v, Multiprocessor._wrapper j = Except.ok v) :
    ∃ outs, m.run cpu_count = Except.ok outs ∧
      Multiprocessor.run { m with parallelize := false } cpu_count = Except.ok outs ∧
      outs.length = m.job_generator.length ∧
      ∀ (i : Nat) (hi : i < m.job_generator.length) (ho : i < outs.length),
        Multiprocessor._wrapper (m.job_generator.get ⟨i, hi⟩)
          = Except.ok (outs.get ⟨i, ho⟩) := by
  obtain ⟨outs, h1, h2, h3⟩ := mapWrapper_ok m.job_generator hok
  refine ⟨outs, ?_, ?_, h2, h3⟩
  · simp [Multiprocessor.run, hpar, Multiprocessor.poolSize, hnp, h1]
  · simp [Multiprocessor.run, h1]

/-- Witness for C1 (amended), at a one-job batch with worker bound 0. -/
theorem C1_order_preservation_witness :
    ∃ outs, mZeroBound.run 4 = Except.ok outs ∧
      Multiprocessor.run { mZeroBound with parallelize := false } 4 = Except.ok outs ∧
      outs.length = mZeroBound.job_generator.length ∧
      ∀ (i : Nat) (hi : i < mZeroBound.job_generator.length) (ho : i < outs.length),
        Multiprocessor._wrapper (mZeroBound.job_generator.get ⟨i, hi⟩)
          = Except.ok (outs.get ⟨i, ho⟩) :=
  C1_order_preservation mZeroBound 4 rfl (by decide)
    (by
      intro j hj
      simp only [mZeroBound, List.mem_singleton] at hj
      subst hj
      exact ⟨none, rfl⟩)

/-- Claim C2 (code bug): when the worker bound is positive, `run` never
configures the pool with that bound; evaluating `Pool(number_of_processes)`
raises `UnboundLocalError` because the local `number_of_processes` is only
assigned inside the `<= 0` branch (`Multiprocessor.py` lines 181-184), so the
whole parallel run fails at the failing input `number_of_processes = 3`.  With
a non-positive bound the pool is sized by `cpu_count()` as claimed and one
outcome per job is collected. -/
theorem C2_positive_bound_raises :
    mPosBound.poolSize 4
        = Except.error { kind := ExcKind.unboundLocalError, payload := 0 } ∧
    mPosBound.run 4
        = Except.error { kind := ExcKind.unboundLocalError, payload := 0 } ∧
    mZeroBound.poolSize 4 = Except.ok 4 ∧
    mZeroBound.run 4 = Except.ok [none] :=
  ⟨rfl, rfl, rfl, rfl⟩

/-- Claim C8: assigning a non-failure value to a Task's failure slot raises
(the setter re-raises the value inside a handler keyed on its class, which
fails with `TypeError` for anything but an exception instance) and leaves the
slot not updated (on `Except.error` the task is unchanged); assigning an
actual failure object stores exactly that failure in the slot and touches
nothing else. -/
theorem C8_setter_validation (t : Task) (x : PyObj) :
    (isExcInstObj x = false → ∃ err, t.set_exception_raised x = Except.error err) ∧
    (∀ e : Exc, x = PyObj.excInst e →
      ∃ t', t.set_exception_raised x = Except.ok t' ∧
        t'.exception_raised = some e ∧ t'.callable_ = t.callable_ ∧
        t'.arguments = t.arguments ∧ t'.return_value = t.return_value) := by
  constructor
  · intro h
    cases x <;> simp [isExcInstObj] at h <;> exact ⟨_, rfl⟩
  · rintro e rfl
    exact ⟨_, rfl, rfl, rfl, rfl, rfl⟩

/-- Witness for C8: a plain integer is rejected, an actual failure object is
stored. -/
theorem C8_setter_validation_witness :
    (∃ err, task0.set_exception_raised (PyObj.intObj 7) = Except.error err) ∧
    ∃ t', task0.set_exception_raised
        (PyObj.excInst { kind := ExcKind.valueError, payload := 1 }) = Except.ok t' ∧
      t'.exception_raised = some { kind := ExcKind.valueError, payload := 1 } ∧
      t'.callable_ = task0.callable_ ∧ t'.arguments = task0.arguments ∧
      t'.return_value = task0.return_value :=
  ⟨(C8_setter_validation task0 (PyObj.intObj 7)).1 rfl,
   (C8_setter_validation task0
      (PyObj.excInst { kind := ExcKind.valueError, payload := 1 })).2
      { kind := ExcKind.valueError, payload := 1 } rfl⟩

/-- Claim C10: a freshly constructed Job has an empty ongoing-task pointer,
appending tasks does not change that pointer, and calling `ask_forgiveness`
with the pointer still empty raises `AttributeError` on the attribute
assignment, before recording the failure anywhere or running any forgiveness
task (the job is returned unchanged). -/
theorem C10_fresh_forgiveness :
    Job.init.ongoing_task = none ∧
    (∀ (j : Job) (c : List Value → Except Exc Value) (a : List Value),
      (j.append_normal_task c a).ongoing_task = j.ongoing_task ∧
      (j.append_forgiveness_task c a).ongoing_task = j.ongoing_task) ∧
    (∀ j : Job, j.ongoing_task = none → ∀ e : Exc,
      j.ask_forgiveness e
        = (j, some { kind := ExcKind.attributeError, payload := 0 })) := by
  refine ⟨rfl, fun j c a => ⟨rfl, rfl⟩, ?_⟩
  intro j h e
  simp [Job.ask_forgiveness, h]

/-- Witness for C10: the fresh job, asked for forgiveness, fails with
`AttributeError` and is unchanged. -/
theorem C10_fresh_forgiveness_witness :
    Job.init.ask_forgiveness { kind := ExcKind.valueError, payload := 9 }
      = (Job.init, some { kind := ExcKind.attributeError, payload := 0 }) :=
  C10_fresh_forgiveness.2.2 Job.init rfl { kind := ExcKind.valueError, payload := 9 }

/-- Claim C3: if the normal task at position `k` raises `e` while the tasks
before it succeed, then `run` lets `e` escape immediately with `k` recorded as
ongoing; the tasks from position `k` on are untouched (in particular, tasks
`k+1..end` keep empty result and failure slots if they started empty); and if
`e`'s kind is in the job's effective catch set, the wrapper then runs the
forgiveness tasks exactly once, in list order (the final forgiveness list is
the one produced by a single in-order pass). -/
theorem C3_skip_on_failure (j : Job) (k : Nat) (e : Exc) (hk : k < j.tasks_to_do.length)
    (hpre : ∀ t ∈ j.tasks_to_do.take k, ∃ v, t.callable_ t.arguments = Except.ok v)
    (hfail : (j.tasks_to_do.get ⟨k, hk⟩).callable_ (j.tasks_to_do.get ⟨k, hk⟩).arguments
      = Except.error e) :
    ∃ j', j.run = (j', some e) ∧
      j'.ongoing_task = some k ∧
      j'.tasks_to_do.length = j.tasks_to_do.length ∧
      j'.tasks_to_do.drop k = j.tasks_to_do.drop k ∧
      ((∀ t ∈ j.tasks_to_do.drop (k + 1),
          t.return_value = Value.noneV ∧ t.exception_raised = none) →
        ∀ t ∈ j'.tasks_to_do.drop (k + 1),
          t.return_value = Value.noneV ∧ t.exception_raised = none) ∧
      (catchesExc j.exceptions_to_catch e = true →
        (Multiprocessor.wrapperFull j).1.tasks_to_do_if_shit_happens
          = (runTaskList j.tasks_to_do_if_shit_happens).1) := by
  obtain ⟨ts', h1, h2, h3⟩ := runTasksIdx_fail k e 0 j.tasks_to_do hk hpre hfail
  have hrun : j.run = ({ j with tasks_to_do := ts', ongoing_task := some k }, some e) := by
    simp [Job.run, h1, Option.orElse]
  refine ⟨{ j with tasks_to_do := ts', ongoing_task := some k }, hrun, rfl, h2, h3, ?_, ?_⟩
  · intro hfresh t ht
    have hdrop : ts'.drop (k + 1) = j.tasks_to_do.drop (k + 1) := by
      have h4 := congrArg (List.drop 1) h3
      simpa [List.drop_drop, Nat.add_comm] using h4
    rw [show ({ j with tasks_to_do := ts', ongoing_task := some k } : Job).tasks_to_do
        = ts' from rfl] at ht
    rw [hdrop] at ht
    exact hfresh t ht
  · intro hc
    have hc' : catchesExc
        (Job.exceptions_to_catch { j with tasks_to_do := ts', ongoing_task := some k })
        e = true := hc
    have hforg := wrapperFull_forg_of_caught j _ e hrun hc' k rfl
    simpa using hforg

/-- Witness for C3, at a three-task job whose middle task raises a declared
`ZeroDivisionError`. -/
theorem C3_skip_on_failure_witness :
    ∃ j', jobC3.run = (j', some { kind := ExcKind.zeroDivisionError, payload := 7 }) ∧
      j'.ongoing_task = some 1 ∧
      j'.tasks_to_do.length = jobC3.tasks_to_do.length ∧
      j'.tasks_to_do.drop 1 = jobC3.tasks_to_do.drop 1 ∧
      ((∀ t ∈ jobC3.tasks_to_do.drop 2,
          t.return_value = Value.noneV ∧ t.exception_raised = none) →
        ∀ t ∈ j'.tasks_to_do.drop 2,
          t.return_value = Value.noneV ∧ t.exception_raised = none) ∧
      (catchesExc jobC3.exceptions_to_catch
          { kind := ExcKind.zeroDivisionError, payload := 7 } = true →
        (Multiprocessor.wrapperFull jobC3).1.tasks_to_do_if_shit_happens
          = (runTaskList jobC3.tasks_to_do_if_shit_happens).1) :=
  C3_skip_on_failure jobC3 1 { kind := ExcKind.zeroDivisionError, payload := 7 }
    (by decide)
    (by
      intro t ht
      simp only [jobC3, List.take_succ_cons, List.take_zero, List.mem_singleton] at ht
      subst ht
      exact ⟨Value.intV 2, rfl⟩)
    rfl

/-- Claim C4: a failure raised by `run` whose kind is not in the job's
non-empty catch set escapes the wrapper unchanged, and in both execution modes
(sequential, and parallel with any worker bound) the batch's `run` then
returns no outcome sequence at all. -/
theorem C4_undeclared_fatal (j j1 : Job) (e : Exc)
    (_hne : j.exceptions_to_catch_list ≠ [])
    (hrun : j.run = (j1, some e))
    (hnc : catchesExc j.exceptions_to_catch e = false) :
    Multiprocessor._wrapper j = Except.error e ∧
    ∀ (pre post : List Job) (extr : Nat) (pz : Bool) (np : Int) (cpu : Nat),
      (∀ p ∈ pre, ∃ v, Multiprocessor._wrapper p = Except.ok v) →
      ∀ outs,
        Multiprocessor.run
          { job_generator := pre ++ j :: post, result_extractor_function := extr,
            parallelize := pz, number_of_processes := np } cpu ≠ Except.ok outs := by
  have hlist : j1.exceptions_to_catch_list = j.exceptions_to_catch_list := by
    have h0 := (Job.run_preserves j).1
    rw [hrun] at h0
    exact h0
  have hcatch : catchesExc j1.exceptions_to_catch e = false := by
    have heq : j1.exceptions_to_catch = j.exceptions_to_catch := by
      simp [Job.exceptions_to_catch, hlist]
    rw [heq]
    exact hnc
  have hw : Multiprocessor._wrapper j = Except.error e := by
    unfold Multiprocessor._wrapper Multiprocessor.wrapperFull
    rw [hrun]
    simp [hcatch]
  refine ⟨hw, ?_⟩
  intro pre post extr pz np cpu hpreok outs hcontra
  have hmap : mapWrapper (pre ++ j :: post) = Except.error e :=
    mapWrapper_error pre j post e hpreok hw
  cases pz with
  | false => simp [Multiprocessor.run, hmap] at hcontra
  | true =>
    by_cases hnp : np ≤ 0
    · simp [Multiprocessor.run, Multiprocessor.poolSize, hnp, hmap] at hcontra
    · simp [Multiprocessor.run, Multiprocessor.poolSize, hnp] at hcontra

/-- Witness for C4, at a one-job batch whose job raises a `ZeroDivisionError`
not in its catch set `(TypeError,)`. -/
theorem C4_undeclared_fatal_witness :
    Multiprocessor._wrapper jobC4
        = Except.error { kind := ExcKind.zeroDivisionError, payload := 7 } ∧
    Multiprocessor.run
      { job_generator := [jobC4], result_extractor_function := 0,
        parallelize := false, number_of_processes := 0 } 4 ≠ Except.ok [] := by
  have h := C4_undeclared_fatal jobC4 (jobC4.run).1
    { kind := ExcKind.zeroDivisionError, payload := 7 } (by decide) rfl rfl
  exact ⟨h.1, h.2 [] [] 0 false 0 4 (by intro p hp; simp at hp) []⟩

/-- Claim C5: a job with no declared failure kinds has the universal catch-all
`(BaseException,)` as its effective catch set, which matches every failure
kind, so the wrapper recovers from every failure raised during `run` (it runs
the forgiveness tasks); a job with at least one declared kind has exactly the
declared kinds as its effective catch set. -/
theorem C5_catch_all (j : Job) :
    (j.exceptions_to_catch_list = [] →
      j.exceptions_to_catch = [ExcKind.baseException] ∧
      (∀ e : Exc, catchesExc j.exceptions_to_catch e = true) ∧
      (∀ (j' : Job) (e : Exc), j.run = (j', some e) →
        (Multiprocessor.wrapperFull j).1.tasks_to_do_if_shit_happens
          = (runTaskList j'.tasks_to_do_if_shit_happens).1)) ∧
    (j.exceptions_to_catch_list ≠ [] →
      j.exceptions_to_catch = j.exceptions_to_catch_list) := by
  constructor
  · intro h
    have h1 : j.exceptions_to_catch = [ExcKind.baseException] := by
      simp [Job.exceptions_to_catch, h]
    refine ⟨h1, ?_, ?_⟩
    · intro e
      rw [h1]
      exact catchesExc_baseException e
    · intro j' e hrun
      have hlist : j'.exceptions_to_catch_list = [] := by
        have h0 := (Job.run_preserves j).1
        rw [hrun] at h0
        rw [h0]
        exact h
      have hc : catchesExc j'.exceptions_to_catch e = true := by
        rw [show j'.exceptions_to_catch = [ExcKind.baseException] by
          simp [Job.exceptions_to_catch, hlist]]
        exact catchesExc_baseException e
      obtain ⟨i, hi⟩ := Job.run_ongoing_of_fail j j' e hrun
      exact wrapperFull_forg_of_caught j j' e hrun hc i hi
  · intro h
    have hfalse : j.exceptions_to_catch_list.isEmpty = false := by
      cases hl : j.exceptions_to_catch_list with
      | nil => exact absurd hl h
      | cons a l => rfl
    simp [Job.exceptions_to_catch, hfalse]

/-- Witness for C5, at a job with no declared kinds whose task raises. -/
theorem C5_catch_all_witness :
    jobC5.exceptions_to_catch = [ExcKind.baseException] ∧
    catchesExc jobC5.exceptions_to_catch
      { kind := ExcKind.overflowError, payload := 3 } = true ∧
    (Multiprocessor.wrapperFull jobC5).1.tasks_to_do_if_shit_happens
      = (runTaskList ((jobC5.run).1).tasks_to_do_if_shit_happens).1 :=
  ⟨((C5_catch_all jobC5).1 rfl).1,
   ((C5_catch_all jobC5).1 rfl).2.1 { kind := ExcKind.overflowError, payload := 3 },
   ((C5_catch_all jobC5).1 rfl).2.2 (jobC5.run).1
     { kind := ExcKind.zeroDivisionError, payload := 7 } rfl⟩

/-- Claim C6: when the wrapper reaches the extraction step (it returns rather
than raising), its outcome is the first `Results`-capable stored return value,
scanning the final normal task list in order and then the final forgiveness
task list in order; a `Results` value in the normal list wins over any in the
forgiveness list; and when no stored value is `Results`-capable the outcome is
the explicit no-result marker `none`. -/
theorem C6_extraction_precedence (j : Job) (out : Option Value)
    (h : Multiprocessor._wrapper j = Except.ok out) :
    out = (((Multiprocessor.wrapperFull j).1.tasks_to_do
            ++ (Multiprocessor.wrapperFull j).1.tasks_to_do_if_shit_happens).map
           Task.return_value).find? isResults ∧
    (∀ v, ((Multiprocessor.wrapperFull j).1.tasks_to_do.map
            Task.return_value).find? isResults = some v → out = some v) ∧
    ((((Multiprocessor.wrapperFull j).1.tasks_to_do
        ++ (Multiprocessor.wrapperFull j).1.tasks_to_do_if_shit_happens).map
       Task.return_value).find? isResults = none → out = none) := by
  have hx := wrapperFull_ok_extract j out h
  have he := extractFirstResults_eq (Multiprocessor.wrapperFull j).1
  refine ⟨by rw [hx, he], ?_, ?_⟩
  · intro v hv
    have hs : scanForResults (Multiprocessor.wrapperFull j).1.tasks_to_do = some v := by
      rw [scanForResults_eq_find]
      exact hv
    rw [hx]
    unfold extractFirstResults
    simp [hs]
  · intro h0
    rw [hx, he]
    exact h0

/-- Witness for C6, at a job where the first normal task stores a `Results`
value before a declared failure and the forgiveness task stores another: the
normal one is returned. -/
theorem C6_extraction_precedence_witness :
    (some (Value.resultsV 1) : Option Value) =
      (((Multiprocessor.wrapperFull jobC6).1.tasks_to_do
        ++ (Multiprocessor.wrapperFull jobC6).1.tasks_to_do_if_shit_happens).map
       Task.return_value).find? isResults ∧
    (∀ v, ((Multiprocessor.wrapperFull jobC6).1.tasks_to_do.map
            Task.return_value).find? isResults = some v
        → (some (Value.resultsV 1) : Option Value) = some v) ∧
    ((((Multiprocessor.wrapperFull jobC6).1.tasks_to_do
        ++ (Multiprocessor.wrapperFull jobC6).1.tasks_to_do_if_shit_happens).map
       Task.return_value).find? isResults = none
        → (some (Value.resultsV 1) : Option Value) = none) :=
  C6_extraction_precedence jobC6 (some (Value.resultsV 1)) rfl

/-- A value the spec counts as a failure kind: an exception class, or a
collection of exception classes. -/
def isFailureKindArg (x : PyObj) : Bool :=
  match isCollectionType x with
  | some xs => xs.all isExcClsObj
  | none => isExcClsObj x

/-- If the element check of `append_exception_to_catch` passes, every element
of the collection is an exception class. -/
theorem allSubclassBase_true (xs : List PyObj) (h : allSubclassBase xs = Except.ok true) :
    xs.all isExcClsObj = true := by
  induction xs with
  | nil => rfl
  | cons x rest ih =>
    cases x
    case excCls k =>
      have hr : allSubclassBase rest = Except.ok true := by
        simpa [allSubclassBase] using h
      simpa [isExcClsObj] using ih hr
    all_goals simp [allSubclassBase] at h

/-- On a collection argument, `append_exception_to_catch` reduces to the
element check. -/
theorem append_collection_shape (j : Job) (x : PyObj) (xs : List PyObj)
    (hx : isCollectionType x = some xs) :
    j.append_exception_to_catch x =
      match allSubclassBase xs with
      | Except.error e => Except.error e
      | Except.ok false => Except.error { kind := ExcKind.typeError, payload := 1 }
      | Except.ok true => Except.ok { j with exceptions_to_catch_list :=
          j.exceptions_to_catch_list ++ xs.filterMap asExcCls } := by
  cases x <;> simp [isCollectionType] at hx <;> subst hx <;> rfl

/-- Claim C7, counterexample: appending the non-exception class `int` (a value
that is not a failure kind) does not fail: `issubclass(int, BaseException)` is
`False`, so the method falls through to its final bare `return`, silently
ignoring the value (the declared set is unchanged but no failure is raised,
contradicting the claim that the append operation fails). -/
theorem C7_counterexample :
    Job.init.append_exception_to_catch (PyObj.cls 0) = Except.ok Job.init ∧
    ∀ err : Exc, Job.init.append_exception_to_catch (PyObj.cls 0) ≠ Except.error err := by
  refine ⟨rfl, ?_⟩
  intro err h
  rw [show Job.init.append_exception_to_catch (PyObj.cls 0)
      = Except.ok Job.init from rfl] at h
  exact Except.noConfusion h

/-- Claim C7 (amended): appending a value that is not a failure kind never
alters the declared set; the append raises a `TypeError` when the value is
neither a class nor a collection, and when it is a collection (which, not
being a collection of exception classes, has a non-class or non-exception
element); but a bare class that is not an exception class is silently ignored
(the call returns with the set unchanged instead of failing). -/
theorem C7_amended_rejection (j : Job) (x : PyObj) (h : isFailureKindArg x = false) :
    (∀ j', j.append_exception_to_catch x = Except.ok j' →
      j'.exceptions_to_catch_list = j.exceptions_to_catch_list) ∧
    ((isClassObj x = false ∧ isCollectionType x = none) →
      ∃ err, j.append_exception_to_catch x = Except.error err) ∧
    (∀ xs, isCollectionType x = some xs →
      ∃ err, j.append_exception_to_catch x = Except.error err) ∧
    (∀ n, x = PyObj.cls n → j.append_exception_to_catch x = Except.ok j) := by
  have hcol : ∀ xs, isCollectionType x = some xs →
      ∃ err, j.append_exception_to_catch x = Except.error err := by
    intro xs hx
    have hshape := append_collection_shape j x xs hx
    have hall : xs.all isExcClsObj = false := by
      have hfk : isFailureKindArg x = xs.all isExcClsObj := by
        unfold isFailureKindArg
        rw [hx]
      rw [← hfk]
      exact h
    rcases hres : allSubclassBase xs with eb | b
    · exact ⟨eb, by rw [hshape, hres]⟩
    · cases b with
      | true => exact absurd (allSubclassBase_true xs hres) (by simp [hall])
      | false => exact ⟨_, by rw [hshape, hres]⟩
  have hok : ∀ j', j.append_exception_to_catch x = Except.ok j' →
      j'.exceptions_to_catch_list = j.exceptions_to_catch_list := by
    intro j' hx
    cases x
    case excCls k => simp [isFailureKindArg, isCollectionType, isExcClsObj] at h
    case cls n =>
      simp [Job.append_exception_to_catch, isCollectionType] at hx
      rw [← hx]
    case listObj xs =>
      obtain ⟨err, herr⟩ := hcol xs rfl
      rw [herr] at hx
      exact Except.noConfusion hx
    case tupleObj xs =>
      obtain ⟨err, herr⟩ := hcol xs rfl
      rw [herr] at hx
      exact Except.noConfusion hx
    case setObj xs =>
      obtain ⟨err, herr⟩ := hcol xs rfl
      rw [herr] at hx
      exact Except.noConfusion hx
    case frozensetObj xs =>
      obtain ⟨err, herr⟩ := hcol xs rfl
      rw [herr] at hx
      exact Except.noConfusion hx
    all_goals simp [Job.append_exception_to_catch, isCollectionType] at hx
  have herrplain : (isClassObj x = false ∧ isCollectionType x = none) →
      ∃ err, j.append_exception_to_catch x = Except.error err := by
    rintro ⟨h1, h2⟩
    cases x <;> simp [isClassObj] at h1 <;> simp [isCollectionType] at h2 <;>
      exact ⟨_, rfl⟩
  have hcls : ∀ n, x = PyObj.cls n → j.append_exception_to_catch x = Except.ok j := by
    rintro n rfl
    rfl
  exact ⟨hok, herrplain, hcol, hcls⟩

/-- Witness for C7 (amended): a plain integer is rejected with a raise; a
non-exception class is silently accepted with the set unchanged. -/
theorem C7_amended_rejection_witness :
    (∃ err, Job.init.append_exception_to_catch (PyObj.intObj 9) = Except.error err) ∧
    Job.init.append_exception_to_catch (PyObj.cls 1) = Except.ok Job.init :=
  ⟨(C7_amended_rejection Job.init (PyObj.intObj 9) (by decide)).2.1 ⟨rfl, rfl⟩,
   (C7_amended_rejection Job.init (PyObj.cls 1) (by decide)).2.2.2 1 rfl⟩

/-- Claim C9: when the job source is iterable, the parallel flag a `bool`, the
worker count an `int` and the extractor callable, construction succeeds and
stores the four fields; otherwise it fails with one `TypeError` whose
aggregated report contains exactly the violated constraints (each of the four
messages is present precisely when its check fails, so every violation is
named, not only the first). -/
theorem C9_init_validation (jg ef pz np : PyObj) :
    ((hasIterAttr jg && isBoolInst pz && isIntInst np && isCallableObj ef) = true →
      Multiprocessor.init jg ef pz np = Except.ok
        { job_generator := jg, parallelize := pz, number_of_processes := np,
          result_extractor_function := ef }) ∧
    ((hasIterAttr jg && isBoolInst pz && isIntInst np && isCallableObj ef) = false →
      ∃ probs, Multiprocessor.init jg ef pz np
          = Except.error ({ kind := ExcKind.typeError, payload := 2 }, probs) ∧
        probs ≠ [] ∧
        (Problem.jobGeneratorNotIterable ∈ probs ↔ hasIterAttr jg = false) ∧
        (Problem.parallelizeNotBool ∈ probs ↔ isBoolInst pz = false) ∧
        (Problem.numberOfProcessesNotInt ∈ probs ↔ isIntInst np = false) ∧
        (Problem.extractorNotCallable ∈ probs ↔ isCallableObj ef = false)) := by
  constructor
  · intro hcond
    simp only [Bool.and_eq_true] at hcond
    obtain ⟨⟨⟨h1, h2⟩, h3⟩, h4⟩ := hcond
    simp [Multiprocessor.init, h1, h2, h3, h4]
  · intro hcond
    refine ⟨problemsFor jg ef pz np, by simp [Multiprocessor.init, hcond], ?_⟩
    by_cases h1 : hasIterAttr jg = true <;> by_cases h2 : isBoolInst pz = true <;>
      by_cases h3 : isIntInst np = true <;> by_cases h4 : isCallableObj ef = true <;>
      simp_all [problemsFor]

/-- Witness for C9, at a call violating exactly the iterability and
boolean-flag constraints: the aggregated report names both and only both. -/
theorem C9_init_validation_witness :
    ∃ probs, Multiprocessor.init (PyObj.intObj 0) (PyObj.funcObj 0)
        (PyObj.intObj 1) (PyObj.intObj 2)
        = Except.error ({ kind := ExcKind.typeError, payload := 2 }, probs) ∧
      probs ≠ [] ∧
      (Problem.jobGeneratorNotIterable ∈ probs ↔ hasIterAttr (PyObj.intObj 0) = false) ∧
      (Problem.parallelizeNotBool ∈ probs ↔ isBoolInst (PyObj.intObj 1) = false) ∧
      (Problem.numberOfProcessesNotInt ∈ probs ↔ isIntInst (PyObj.intObj 2) = false) ∧
      (Problem.extractorNotCallable ∈ probs ↔ isCallableObj (PyObj.funcObj 0) = false) :=
  (C9_init_validation (PyObj.intObj 0) (PyObj.funcObj 0)
    (PyObj.intObj 1) (PyObj.intObj 2)).2 (by decide)

end Multiproc
